import Mathlib

/-!
Shallow embedding of a two-variant FastAPI user-management service.

The repository has two parallel service definitions:
* variant `main` (files `main.py`, `models.py`, `database.py`), and
* variant `sample` (self-contained file `sample_fastapi.py`).

Records and stores are modelled as insertion-ordered association lists
(the model of Python `dict`).  Python-level failures that FastAPI turns
into HTTP 500 responses (`KeyError` on a missing dict key, `AttributeError`
on a missing pydantic model attribute, pydantic `ValidationError` on a
missing required field) are modelled explicitly as `Fail.exn`, while
`HTTPException(status_code=c)` is `Fail.http c`.  Calls to
`datetime.now()` are modelled by a `now : String` parameter standing for
the `isoformat()` / `timestamp()` text of the current time.
-/

/-- JSON-like values used for request/response bodies. -/
inductive JVal where
  | str (s : String)
  | num (n : Nat)
  | bool (b : Bool)
  | obj (fields : List (String × JVal))
  | arr (elems : List JVal)

/-- How a handler can fail: an `HTTPException` carrying a status code, or an
uncaught Python exception (`KeyError`, `AttributeError`, pydantic
`ValidationError`), which FastAPI surfaces as an HTTP 500 response. -/
inductive Fail where
  | http (code : Nat)
  | exn (msg : String)

/-- Outcome of a handler: a JSON body or a failure. -/
abbrev Resp := Except Fail JVal

/-- A stored user record: a Python `dict` from field name to string value. -/
abbrev StrDict := List (String × String)

/-- The in-memory store `fake_users_db`: a Python `dict` from user id to
record, in insertion order. -/
abbrev Store := List (String × StrDict)

/-- Python `d[k]` on a record: the value at the first matching key, or a
`KeyError` if the key is absent. -/
def StrDict.item : StrDict → String → Except Fail String
  | [], k => .error (.exn ("KeyError: " ++ k))
  | (k0, v) :: rest, k => if k0 == k then .ok v else StrDict.item rest k

/-- Python `db[k]` / `k in db` on the store, as an optional lookup. -/
def Store.get : Store → String → Option StrDict
  | [], _ => none
  | (k0, v) :: rest, k => if k0 == k then some v else Store.get rest k

/-- Python `db[k] = v`: replace the value at an existing key in place,
otherwise append at the end (dict insertion-order semantics). -/
def Store.setItem : Store → String → StrDict → Store
  | [], k, v => [(k, v)]
  | (k0, v0) :: rest, k, v =>
      if k0 == k then (k0, v) :: rest else (k0, v0) :: Store.setItem rest k v

/-- Python `s.startswith(p)` on character lists: `p` is a literal prefix. -/
def pyPrefixB : List Char → List Char → Bool
  | [], _ => true
  | _ :: _, [] => false
  | p :: ps, c :: cs => p == c && pyPrefixB ps cs

/-- Python `s.startswith(p)`. -/
def pyStartswith (s p : String) : Bool := pyPrefixB p.data s.data

/-- One step of pydantic `BaseModel.__init__`: for each declared field, in
declaration order, pick the matching keyword argument; `none` when a
required field is missing. Extra keyword arguments are ignored (the
default `extra = ignore` configuration). -/
def pydanticCollect (kwargs : List (String × JVal)) : List String → Option (List (String × JVal))
  | [] => some []
  | f :: fs =>
      match kwargs.find? (fun p => p.1 == f) with
      | none => none
      | some p => (pydanticCollect kwargs fs).map (fun rest => (f, p.2) :: rest)

/-- Pydantic model construction: validates that every declared field is
present among the keyword arguments, drops extra arguments, and builds the
object in declared-field order; a missing field is a `ValidationError`. -/
def pydanticInit (fields : List String) (kwargs : List (String × JVal)) : Except Fail JVal :=
  match pydanticCollect kwargs fields with
  | some l => .ok (.obj l)
  | none => .error (.exn "ValidationError")

/-- Python list comprehension `[f(u) for u in db.values()]` over the store,
propagating the first exception. -/
def rowsOf (f : StrDict → Resp) : Store → Except Fail (List JVal)
  | [] => .ok []
  | (_, u) :: rest => do
      let row ← f u
      let more ← rowsOf f rest
      pure (row :: more)

/-- Top-level keys of a JSON object (empty for non-objects). -/
def objKeys : JVal → List String
  | .obj fields => fields.map (fun p => p.1)
  | _ => []

/-- A flat JSON object (or scalar) exposes no `password` key. -/
def rowNoPassword (b : JVal) : Bool := !((objKeys b).contains "password")

/-- A response body exposes no `password` key: element-wise on arrays,
directly otherwise. -/
def bodyNoPassword : JVal → Bool
  | .arr elems => elems.all rowNoPassword
  | b => rowNoPassword b

/-- Two records agree everywhere except possibly on the value stored under
the `password` key (same keys, in the same order). -/
def StrDict.samePw : StrDict → StrDict → Bool
  | [], [] => true
  | (k1, v1) :: r1, (k2, v2) :: r2 =>
      k1 == k2 && (k1 == "password" || v1 == v2) && StrDict.samePw r1 r2
  | _, _ => false

/-- Two stores differ at most in stored password values. -/
def Store.samePw : Store → Store → Bool
  | [], [] => true
  | (i1, u1) :: s1, (i2, u2) :: s2 =>
      i1 == i2 && StrDict.samePw u1 u2 && Store.samePw s1 s2
  | _, _ => false

namespace models

/-- Declared fields of `models.UserResponse` (`models.py`): `id`, `name`,
`mobile`, `created_at`. Note there is no `gmail` and no `phone` field. -/
def UserResponse.fields : List String := ["id", "name", "mobile", "created_at"]

/-- Declared fields of `models.LoginResponse` (`models.py`). -/
def LoginResponse.fields : List String :=
  ["success", "token", "refreshToken", "expiresIn", "user"]

/-- Request model `models.LoginRequest`: fields `mailId`, `password`. -/
structure LoginRequest where
  mailId : String
  password : String

/-- Python attribute access on a `LoginRequest` instance; an attribute that
is not a declared field raises `AttributeError`. -/
def LoginRequest.getattr (r : LoginRequest) (a : String) : Except Fail String :=
  if a == "mailId" then .ok r.mailId
  else if a == "password" then .ok r.password
  else .error (.exn ("AttributeError: " ++ a))

/-- Request model `models.CreateUserRequest`: fields `mailId`, `password`,
`name`, `mobile`. Note there is no `gmail` and no `phone` field. -/
structure CreateUserRequest where
  mailId : String
  password : String
  name : String
  mobile : String

/-- Python attribute access on a `CreateUserRequest` instance. -/
def CreateUserRequest.getattr (r : CreateUserRequest) (a : String) : Except Fail String :=
  if a == "mailId" then .ok r.mailId
  else if a == "password" then .ok r.password
  else if a == "name" then .ok r.name
  else if a == "mobile" then .ok r.mobile
  else .error (.exn ("AttributeError: " ++ a))

/-- Request model `models.RefreshTokenRequest`: field `refresh_token`. -/
structure RefreshTokenRequest where
  refresh_token : String

/-- Python attribute access on a `RefreshTokenRequest` instance. -/
def RefreshTokenRequest.getattr (r : RefreshTokenRequest) (a : String) : Except Fail String :=
  if a == "refresh_token" then .ok r.refresh_token
  else .error (.exn ("AttributeError: " ++ a))

end models

namespace database

/-- The seed store of `database.py`: two records whose contact field is
stored under the key `mail`. -/
def fake_users_db : Store :=
  [("user1",
    [("id", "user1"), ("mail", "john@example.com"), ("name", "John Doe"),
     ("phone", "+1-234-567-8900"), ("password", "hashed_password_123"),
     ("created_at", "2024-01-01T10:00:00Z")]),
   ("user2",
    [("id", "user2"), ("mail", "jane@example.com"), ("name", "Jane Smith"),
     ("phone", "+1-987-654-3210"), ("password", "hashed_password_456"),
     ("created_at", "2024-01-02T10:00:00Z")])]

end database

namespace main

/-- The `UserResponse(...)` expression shared by `get_user`, `list_users`
and `create_user` in `main.py`: reads `user["id"]`, `user["gmail"]`,
`user["name"]`, `user["phone"]`, `user["created_at"]` and then constructs
`models.UserResponse`. -/
def userRow (user : StrDict) : Resp := do
  let vid ← user.item "id"
  let vgmail ← user.item "gmail"
  let vname ← user.item "name"
  let vphone ← user.item "phone"
  let vcreated ← user.item "created_at"
  pydanticInit models.UserResponse.fields
    [("id", .str vid), ("gmail", .str vgmail), ("name", .str vname),
     ("phone", .str vphone), ("created_at", .str vcreated)]

/-- Handler `GET /health` of `main.py`. -/
def health_check (db : Store) : Resp × Store :=
  (.ok (.obj [("status", .str "healthy")]), db)

/-- Handler `GET /api/status` of `main.py`. -/
def get_status (now : String) (db : Store) : Resp × Store :=
  (.ok (.obj [("status", .str "running"), ("version", .str "1.0.0"),
              ("timestamp", .str (now ++ "Z")), ("users_count", .num db.length)]),
   db)

/-- Handler `GET /api/users/user_id` of `main.py`. -/
def get_user (user_id : String) (db : Store) : Resp × Store :=
  (match Store.get db user_id with
   | none => .error (.http 404)
   | some user => userRow user,
   db)

/-- Handler `GET /api/users` of `main.py`. -/
def list_users (db : Store) : Resp × Store :=
  ((rowsOf userRow db).map JVal.arr, db)

/-- The id-allocation expression of `create_user` in `main.py`. -/
def new_user_id (db : Store) : String := "user" ++ toString (db.length + 1)

/-- Handler `POST /api/users` of `main.py`: builds the `new_user` dict by
reading `request.gmail`, `request.password`, `request.name`,
`request.phone` (in that evaluation order), inserts it, and answers with a
`UserResponse` built from the new record. -/
def create_user (request : models.CreateUserRequest) (now : String) (db : Store) :
    Resp × Store :=
  let uid := new_user_id db
  match (do
      let vgmail ← request.getattr "gmail"
      let vpassword ← request.getattr "password"
      let vname ← request.getattr "name"
      let vphone ← request.getattr "phone"
      pure (([("id", uid), ("gmail", vgmail), ("password", vpassword),
              ("name", vname), ("phone", vphone), ("created_at", now ++ "Z")] : StrDict))
      : Except Fail StrDict) with
  | .error e => (.error e, db)
  | .ok new_user => (userRow new_user, Store.setItem db uid new_user)

/-- The `for uid, u in fake_users_db.items()` scan of `login` in `main.py`:
stops at the first record whose `gmail` entry equals `request.gmail`. -/
def loginScan (request : models.LoginRequest) : Store → Except Fail (Option (String × StrDict))
  | [] => pure none
  | (uid, u) :: rest => do
      let lhs ← u.item "gmail"
      let rhs ← request.getattr "gmail"
      if lhs == rhs then pure (some (uid, u)) else loginScan request rest

/-- The access-token expression of `login` in `main.py`. -/
def mkLoginToken (user_id ts : String) : String :=
  "token_jwt_" ++ user_id ++ "_" ++ ts

/-- The refresh-token expression of `login` in `main.py`. -/
def mkLoginRefreshToken (user_id ts : String) : String :=
  "refresh_" ++ user_id ++ "_" ++ ts

/-- Handler `POST /api/login` of `main.py`. -/
def login (request : models.LoginRequest) (now : String) (db : Store) : Resp × Store :=
  ((do
      let found ← loginScan request db
      match found with
      | none => throw (Fail.http 401)
      | some (user_id, user) => do
          let upw ← user.item "password"
          let rpw ← request.getattr "password"
          if upw != rpw then throw (Fail.http 401)
          let uid ← user.item "id"
          let ugmail ← user.item "gmail"
          let uname ← user.item "name"
          pydanticInit models.LoginResponse.fields
            [("success", .bool true), ("token", .str (mkLoginToken user_id now)),
             ("refreshToken", .str (mkLoginRefreshToken user_id now)),
             ("expiresIn", .num 3600),
             ("user", .obj [("id", .str uid), ("gmail", .str ugmail),
                            ("name", .str uname)])]),
   db)

/-- The new access-token expression of `refresh_token` in `main.py`. -/
def mkRefreshedToken (ts : String) : String := "token_jwt_refreshed_" ++ ts

/-- The new refresh-token expression of `refresh_token` in `main.py`. -/
def mkRefreshedRefreshToken (ts : String) : String := "refresh_refreshed_" ++ ts

/-- Handler `POST /api/refresh-token` of `main.py`. -/
def refresh_token (request : models.RefreshTokenRequest) (now : String) (db : Store) :
    Resp × Store :=
  ((do
      let rt ← request.getattr "refresh_token"
      if !(pyStartswith rt "refresh_") then throw (Fail.http 401)
      pure (JVal.obj [("token", .str (mkRefreshedToken now)),
                      ("refreshToken", .str (mkRefreshedRefreshToken now)),
                      ("expiresIn", .num 3600)])),
   db)

/-- Handler `GET /api/profile` of `main.py`: prefix-checks the token, then
always reads the fixed record `fake_users_db["user1"]`. -/
def get_profile (token : String) (now : String) (db : Store) : Resp × Store :=
  ((do
      if !(pyStartswith token "token_") then throw (Fail.http 401)
      match Store.get db "user1" with
      | none => throw (Fail.exn "KeyError: user1")
      | some user => do
          let vid ← user.item "id"
          let vgmail ← user.item "gmail"
          let vname ← user.item "name"
          let vphone ← user.item "phone"
          let vcreated ← user.item "created_at"
          pure (JVal.obj [("id", .str vid), ("gmail", .str vgmail),
                          ("name", .str vname), ("phone", .str vphone),
                          ("created_at", .str vcreated),
                          ("lastLogin", .str (now ++ "Z"))])),
   db)

end main

namespace sample

/-- Declared fields of `UserResponse` in `sample_fastapi.py`: `id`, `name`,
`mobile`, `created_at`. Note there is no `email` field. -/
def UserResponse.fields : List String := ["id", "name", "mobile", "created_at"]

/-- Declared fields of `LoginResponse` in `sample_fastapi.py`. -/
def LoginResponse.fields : List String :=
  ["success", "token", "refreshToken", "expiresIn", "user"]

/-- Request model `LoginRequest` of `sample_fastapi.py`: its only declared
field is `password`. -/
structure LoginRequest where
  password : String

/-- Python attribute access on a sample `LoginRequest` instance. -/
def LoginRequest.getattr (r : LoginRequest) (a : String) : Except Fail String :=
  if a == "password" then .ok r.password
  else .error (.exn ("AttributeError: " ++ a))

/-- Request model `CreateUserRequest` of `sample_fastapi.py`: fields
`password`, `name`, `mobile`. Note there is no `email` field. -/
structure CreateUserRequest where
  password : String
  name : String
  mobile : String

/-- Python attribute access on a sample `CreateUserRequest` instance. -/
def CreateUserRequest.getattr (r : CreateUserRequest) (a : String) : Except Fail String :=
  if a == "password" then .ok r.password
  else if a == "name" then .ok r.name
  else if a == "mobile" then .ok r.mobile
  else .error (.exn ("AttributeError: " ++ a))

/-- The seed store of `sample_fastapi.py`: two records whose contact field
is stored under the key `email` and whose phone field under `mobile`. -/
def fake_users_db : Store :=
  [("user1",
    [("id", "user1"), ("email", "john@example.com"), ("name", "John Doe"),
     ("mobile", "+1-234-567-8900"), ("password", "hashed_password_123"),
     ("created_at", "2024-01-01T10:00:00Z")]),
   ("user2",
    [("id", "user2"), ("email", "jane@example.com"), ("name", "Jane Smith"),
     ("mobile", "+1-987-654-3210"), ("password", "hashed_password_456"),
     ("created_at", "2024-01-02T10:00:00Z")])]

/-- The `UserResponse(...)` expression shared by `get_user`, `list_users`
and `create_user` in `sample_fastapi.py`. -/
def userRow (user : StrDict) : Resp := do
  let vid ← user.item "id"
  let vemail ← user.item "email"
  let vname ← user.item "name"
  let vmobile ← user.item "mobile"
  let vcreated ← user.item "created_at"
  pydanticInit UserResponse.fields
    [("id", .str vid), ("email", .str vemail), ("name", .str vname),
     ("mobile", .str vmobile), ("created_at", .str vcreated)]

/-- Handler `GET /health` of `sample_fastapi.py`. -/
def health_check (db : Store) : Resp × Store :=
  (.ok (.obj [("status", .str "healthy")]), db)

/-- Handler `GET /api/status` of `sample_fastapi.py`. -/
def get_status (now : String) (db : Store) : Resp × Store :=
  (.ok (.obj [("status", .str "running"), ("version", .str "1.0.0"),
              ("timestamp", .str (now ++ "Z")), ("users_count", .num db.length)]),
   db)

/-- Handler `GET /api/users/user_id` of `sample_fastapi.py`. -/
def get_user (user_id : String) (db : Store) : Resp × Store :=
  (match Store.get db user_id with
   | none => .error (.http 404)
   | some user => userRow user,
   db)

/-- Handler `GET /api/users` of `sample_fastapi.py`. -/
def list_users (db : Store) : Resp × Store :=
  ((rowsOf userRow db).map JVal.arr, db)

/-- The id-allocation expression of `create_user` in `sample_fastapi.py`. -/
def new_user_id (db : Store) : String := "user" ++ toString (db.length + 1)

/-- Handler `POST /api/users` of `sample_fastapi.py`: builds the `new_user`
dict by reading `request.email`, `request.password`, `request.name`,
`request.mobile` (in that evaluation order), inserts it, and answers with a
`UserResponse` built from the new record. -/
def create_user (request : CreateUserRequest) (now : String) (db : Store) :
    Resp × Store :=
  let uid := new_user_id db
  match (do
      let vemail ← request.getattr "email"
      let vpassword ← request.getattr "password"
      let vname ← request.getattr "name"
      let vmobile ← request.getattr "mobile"
      pure (([("id", uid), ("email", vemail), ("password", vpassword),
              ("name", vname), ("mobile", vmobile), ("created_at", now ++ "Z")] : StrDict))
      : Except Fail StrDict) with
  | .error e => (.error e, db)
  | .ok new_user => (userRow new_user, Store.setItem db uid new_user)

/-- The `for uid, u in fake_users_db.items()` scan of `login` in
`sample_fastapi.py`: stops at the first record whose `email` entry equals
`request.email`. -/
def loginScan (request : LoginRequest) : Store → Except Fail (Option (String × StrDict))
  | [] => pure none
  | (uid, u) :: rest => do
      let lhs ← u.item "email"
      let rhs ← request.getattr "email"
      if lhs == rhs then pure (some (uid, u)) else loginScan request rest

/-- The access-token expression of `login` in `sample_fastapi.py`. -/
def mkLoginToken (user_id ts : String) : String :=
  "token_jwt_" ++ user_id ++ "_" ++ ts

/-- The refresh-token expression of `login` in `sample_fastapi.py`. -/
def mkLoginRefreshToken (user_id ts : String) : String :=
  "refresh_" ++ user_id ++ "_" ++ ts

/-- Handler `POST /api/login` of `sample_fastapi.py`. In this variant the
handler generates tokens as soon as the scan finds a record; no password
comparison appears in its body. -/
def login (request : LoginRequest) (now : String) (db : Store) : Resp × Store :=
  ((do
      let found ← loginScan request db
      match found with
      | none => throw (Fail.http 401)
      | some (user_id, user) => do
          let uid ← user.item "id"
          let uemail ← user.item "email"
          let uname ← user.item "name"
          pydanticInit LoginResponse.fields
            [("success", .bool true), ("token", .str (mkLoginToken user_id now)),
             ("refreshToken", .str (mkLoginRefreshToken user_id now)),
             ("expiresIn", .num 3600),
             ("user", .obj [("id", .str uid), ("email", .str uemail),
                            ("name", .str uname)])]),
   db)

/-- The new access-token expression of `refresh_token` in
`sample_fastapi.py`. -/
def mkRefreshedToken (ts : String) : String := "token_jwt_refreshed_" ++ ts

/-- The new refresh-token expression of `refresh_token` in
`sample_fastapi.py`. -/
def mkRefreshedRefreshToken (ts : String) : String := "refresh_refreshed_" ++ ts

/-- Handler `POST /api/refresh-token` of `sample_fastapi.py`: takes the
refresh token directly as a string parameter. -/
def refresh_token (rt : String) (now : String) (db : Store) : Resp × Store :=
  ((do
      if !(pyStartswith rt "refresh_") then throw (Fail.http 401)
      pure (JVal.obj [("token", .str (mkRefreshedToken now)),
                      ("refreshToken", .str (mkRefreshedRefreshToken now)),
                      ("expiresIn", .num 3600)])),
   db)

/-- Handler `GET /api/profile` of `sample_fastapi.py`: prefix-checks the
token, then always reads the fixed record `fake_users_db["user1"]`. -/
def get_profile (token : String) (now : String) (db : Store) : Resp × Store :=
  ((do
      if !(pyStartswith token "token_") then throw (Fail.http 401)
      match Store.get db "user1" with
      | none => throw (Fail.exn "KeyError: user1")
      | some user => do
          let vid ← user.item "id"
          let vemail ← user.item "email"
          let vname ← user.item "name"
          let vmobile ← user.item "mobile"
          let vcreated ← user.item "created_at"
          pure (JVal.obj [("id", .str vid), ("email", .str vemail),
                          ("name", .str vname), ("mobile", .str vmobile),
                          ("created_at", .str vcreated),
                          ("lastLogin", .str (now ++ "Z"))])),
   db)

end sample

/-- A password-variant copy of the sample seed store: identical to
`sample.fake_users_db` except for the two stored password values. -/
def samplePwVariantStore : Store :=
  [("user1",
    [("id", "user1"), ("email", "john@example.com"), ("name", "John Doe"),
     ("mobile", "+1-234-567-8900"), ("password", "pw_alternative_1"),
     ("created_at", "2024-01-01T10:00:00Z")]),
   ("user2",
    [("id", "user2"), ("email", "jane@example.com"), ("name", "Jane Smith"),
     ("mobile", "+1-987-654-3210"), ("password", "pw_alternative_2"),
     ("created_at", "2024-01-02T10:00:00Z")])]

/-!
Helper lemmas: congruence of record and store lookups under password-only
variation, and key-shape facts about constructed response bodies.
-/

theorem StrDict.samePw_item : ∀ {r1 r2 : StrDict}, StrDict.samePw r1 r2 = true →
    ∀ k, (k == "password") = false → StrDict.item r1 k = StrDict.item r2 k := by
  intro r1
  induction r1 with
  | nil =>
    intro r2 h
    cases r2 with
    | nil => intro k _; rfl
    | cons q r2 => simp [StrDict.samePw] at h
  | cons p r1 ih =>
    intro r2 h
    cases r2 with
    | nil => obtain ⟨k1, v1⟩ := p; simp [StrDict.samePw] at h
    | cons q r2 =>
      obtain ⟨k1, v1⟩ := p
      obtain ⟨k2, v2⟩ := q
      simp only [StrDict.samePw, Bool.and_eq_true, Bool.or_eq_true, beq_iff_eq] at h
      obtain ⟨⟨hk12, hv⟩, hrest⟩ := h
      subst hk12
      intro k hk
      by_cases hc : k1 = k
      · subst hc
        have hne : ¬ (k1 = "password") := by
          intro hp; rw [hp] at hk; simp at hk
        have hv2 : v1 = v2 := hv.resolve_left hne
        simp [StrDict.item, hv2]
      · simp only [StrDict.item, beq_iff_eq, if_neg hc]
        exact ih hrest k hk

theorem Store.samePw_get : ∀ {s1 s2 : Store}, Store.samePw s1 s2 = true →
    ∀ k, (Store.get s1 k = none ∧ Store.get s2 k = none)
      ∨ ∃ u1 u2, Store.get s1 k = some u1 ∧ Store.get s2 k = some u2
          ∧ StrDict.samePw u1 u2 = true := by
  intro s1
  induction s1 with
  | nil =>
    intro s2 h k
    cases s2 with
    | nil => exact Or.inl ⟨rfl, rfl⟩
    | cons q s2 => simp [Store.samePw] at h
  | cons p s1 ih =>
    intro s2 h k
    cases s2 with
    | nil => obtain ⟨i1, u1⟩ := p; simp [Store.samePw] at h
    | cons q s2 =>
      obtain ⟨i1, u1⟩ := p
      obtain ⟨i2, u2⟩ := q
      simp only [Store.samePw, Bool.and_eq_true, beq_iff_eq] at h
      obtain ⟨⟨hi, hu⟩, hrest⟩ := h
      subst hi
      by_cases hc : i1 = k
      · subst hc
        exact Or.inr ⟨u1, u2, by simp [Store.get], by simp [Store.get], hu⟩
      · simpa only [Store.get, beq_iff_eq, if_neg hc] using ih hrest k

theorem Store.samePw_length : ∀ {s1 s2 : Store}, Store.samePw s1 s2 = true →
    s1.length = s2.length := by
  intro s1
  induction s1 with
  | nil =>
    intro s2 h
    cases s2 with
    | nil => rfl
    | cons q s2 => simp [Store.samePw] at h
  | cons p s1 ih =>
    intro s2 h
    cases s2 with
    | nil => obtain ⟨i1, u1⟩ := p; simp [Store.samePw] at h
    | cons q s2 =>
      obtain ⟨i1, u1⟩ := p
      obtain ⟨i2, u2⟩ := q
      simp only [Store.samePw, Bool.and_eq_true] at h
      simpa using ih h.2

theorem main_userRow_samePw {u1 u2 : StrDict} (h : StrDict.samePw u1 u2 = true) :
    main.userRow u1 = main.userRow u2 := by
  have h1 := StrDict.samePw_item h "id" rfl
  have h2 := StrDict.samePw_item h "gmail" rfl
  have h3 := StrDict.samePw_item h "name" rfl
  have h4 := StrDict.samePw_item h "phone" rfl
  have h5 := StrDict.samePw_item h "created_at" rfl
  simp only [main.userRow, h1, h2, h3, h4, h5]

theorem sample_userRow_samePw {u1 u2 : StrDict} (h : StrDict.samePw u1 u2 = true) :
    sample.userRow u1 = sample.userRow u2 := by
  have h1 := StrDict.samePw_item h "id" rfl
  have h2 := StrDict.samePw_item h "email" rfl
  have h3 := StrDict.samePw_item h "name" rfl
  have h4 := StrDict.samePw_item h "mobile" rfl
  have h5 := StrDict.samePw_item h "created_at" rfl
  simp only [sample.userRow, h1, h2, h3, h4, h5]

theorem main_get_user_samePw {s1 s2 : Store} (h : Store.samePw s1 s2 = true)
    (uid : String) : (main.get_user uid s1).1 = (main.get_user uid s2).1 := by
  rcases Store.samePw_get h uid with ⟨h1, h2⟩ | ⟨u1, u2, h1, h2, hu⟩
  · simp only [main.get_user, h1, h2]
  · simp only [main.get_user, h1, h2]
    exact main_userRow_samePw hu

theorem rowsOf_samePw {f : StrDict → Resp}
    (hf : ∀ u1 u2, StrDict.samePw u1 u2 = true → f u1 = f u2) :
    ∀ {s1 s2 : Store}, Store.samePw s1 s2 = true → rowsOf f s1 = rowsOf f s2 := by
  intro s1
  induction s1 with
  | nil =>
    intro s2 h
    cases s2 with
    | nil => rfl
    | cons q s2 => simp [Store.samePw] at h
  | cons p s1 ih =>
    intro s2 h
    cases s2 with
    | nil => obtain ⟨i1, u1⟩ := p; simp [Store.samePw] at h
    | cons q s2 =>
      obtain ⟨i1, u1⟩ := p
      obtain ⟨i2, u2⟩ := q
      simp only [Store.samePw, Bool.and_eq_true] at h
      obtain ⟨⟨_, hu⟩, hrest⟩ := h
      simp only [rowsOf, hf u1 u2 hu, ih hrest]

theorem main_list_users_samePw {s1 s2 : Store} (h : Store.samePw s1 s2 = true) :
    (main.list_users s1).1 = (main.list_users s2).1 := by
  simp only [main.list_users, rowsOf_samePw (fun u1 u2 hu => main_userRow_samePw hu) h]

theorem main_get_profile_samePw {s1 s2 : Store} (h : Store.samePw s1 s2 = true)
    (tok now : String) : (main.get_profile tok now s1).1 = (main.get_profile tok now s2).1 := by
  cases hb : pyStartswith tok "token_" with
  | false => simp [main.get_profile, hb, Bind.bind, Except.bind]
  | true =>
    rcases Store.samePw_get h "user1" with ⟨h1, h2⟩ | ⟨u1, u2, h1, h2, hu⟩
    · simp [main.get_profile, hb, Bind.bind, Except.bind, h1, h2]
    · have e1 := StrDict.samePw_item hu "id" rfl
      have e2 := StrDict.samePw_item hu "gmail" rfl
      have e3 := StrDict.samePw_item hu "name" rfl
      have e4 := StrDict.samePw_item hu "phone" rfl
      have e5 := StrDict.samePw_item hu "created_at" rfl
      simp [main.get_profile, hb, Bind.bind, Except.bind, h1, h2, e1, e2, e3, e4, e5]

theorem main_get_status_samePw {s1 s2 : Store} (h : Store.samePw s1 s2 = true)
    (now : String) : (main.get_status now s1).1 = (main.get_status now s2).1 := by
  simp only [main.get_status, Store.samePw_length h]

theorem sample_get_user_samePw {s1 s2 : Store} (h : Store.samePw s1 s2 = true)
    (uid : String) : (sample.get_user uid s1).1 = (sample.get_user uid s2).1 := by
  rcases Store.samePw_get h uid with ⟨h1, h2⟩ | ⟨u1, u2, h1, h2, hu⟩
  · simp only [sample.get_user, h1, h2]
  · simp only [sample.get_user, h1, h2]
    exact sample_userRow_samePw hu

theorem sample_list_users_samePw {s1 s2 : Store} (h : Store.samePw s1 s2 = true) :
    (sample.list_users s1).1 = (sample.list_users s2).1 := by
  simp only [sample.list_users, rowsOf_samePw (fun u1 u2 hu => sample_userRow_samePw hu) h]

theorem sample_get_profile_samePw {s1 s2 : Store} (h : Store.samePw s1 s2 = true)
    (tok now : String) :
    (sample.get_profile tok now s1).1 = (sample.get_profile tok now s2).1 := by
  cases hb : pyStartswith tok "token_" with
  | false => simp [sample.get_profile, hb, Bind.bind, Except.bind]
  | true =>
    rcases Store.samePw_get h "user1" with ⟨h1, h2⟩ | ⟨u1, u2, h1, h2, hu⟩
    · simp [sample.get_profile, hb, Bind.bind, Except.bind, h1, h2]
    · have e1 := StrDict.samePw_item hu "id" rfl
      have e2 := StrDict.samePw_item hu "email" rfl
      have e3 := StrDict.samePw_item hu "name" rfl
      have e4 := StrDict.samePw_item hu "mobile" rfl
      have e5 := StrDict.samePw_item hu "created_at" rfl
      simp [sample.get_profile, hb, Bind.bind, Except.bind, h1, h2, e1, e2, e3, e4, e5]

theorem sample_get_status_samePw {s1 s2 : Store} (h : Store.samePw s1 s2 = true)
    (now : String) : (sample.get_status now s1).1 = (sample.get_status now s2).1 := by
  simp only [sample.get_status, Store.samePw_length h]

theorem exceptBind_ok {α β : Type} {x : Except Fail α} {f : α → Except Fail β} {b : β}
    (h : (x >>= f) = Except.ok b) : ∃ a, x = Except.ok a ∧ f a = Except.ok b := by
  cases x with
  | ok a => exact ⟨a, rfl, h⟩
  | error e => exact absurd h (by simp [Bind.bind, Except.bind])

theorem pydanticCollect_keys (kwargs : List (String × JVal)) :
    ∀ (fields : List String) (l : List (String × JVal)),
      pydanticCollect kwargs fields = some l → l.map Prod.fst = fields := by
  intro fields
  induction fields with
  | nil =>
    intro l h
    simp [pydanticCollect] at h
    subst h
    rfl
  | cons f fs ih =>
    intro l h
    unfold pydanticCollect at h
    cases hf : kwargs.find? (fun p => p.1 == f) with
    | none => rw [hf] at h; cases h
    | some p =>
      rw [hf] at h
      cases hc : pydanticCollect kwargs fs with
      | none => rw [hc] at h; cases h
      | some rest =>
        rw [hc] at h
        have h2 : ((f, p.2) :: rest : List (String × JVal)) = l := by simpa using h
        subst h2
        simp [ih rest hc]

theorem pydanticInit_ok_noPw {fields : List String} {kwargs : List (String × JVal)}
    {b : JVal} (hf : fields.contains "password" = false)
    (h : pydanticInit fields kwargs = .ok b) : rowNoPassword b = true := by
  unfold pydanticInit at h
  cases hc : pydanticCollect kwargs fields with
  | none => rw [hc] at h; cases h
  | some l =>
    rw [hc] at h
    cases h
    simp only [rowNoPassword, objKeys]
    have : l.map Prod.fst = fields := pydanticCollect_keys kwargs fields l hc
    rw [show (fun p : String × JVal => p.1) = Prod.fst from rfl, this, hf]
    rfl

theorem main_userRow_ok_noPw {u : StrDict} {b : JVal} (h : main.userRow u = .ok b) :
    rowNoPassword b = true := by
  unfold main.userRow at h
  obtain ⟨a1, e1, h⟩ := exceptBind_ok h
  obtain ⟨a2, e2, h⟩ := exceptBind_ok h
  obtain ⟨a3, e3, h⟩ := exceptBind_ok h
  obtain ⟨a4, e4, h⟩ := exceptBind_ok h
  obtain ⟨a5, e5, h⟩ := exceptBind_ok h
  exact pydanticInit_ok_noPw (show models.UserResponse.fields.contains "password" = false from rfl) h

theorem sample_userRow_ok_noPw {u : StrDict} {b : JVal} (h : sample.userRow u = .ok b) :
    rowNoPassword b = true := by
  unfold sample.userRow at h
  obtain ⟨a1, e1, h⟩ := exceptBind_ok h
  obtain ⟨a2, e2, h⟩ := exceptBind_ok h
  obtain ⟨a3, e3, h⟩ := exceptBind_ok h
  obtain ⟨a4, e4, h⟩ := exceptBind_ok h
  obtain ⟨a5, e5, h⟩ := exceptBind_ok h
  exact pydanticInit_ok_noPw (show sample.UserResponse.fields.contains "password" = false from rfl) h

theorem rowsOf_ok_noPw {f : StrDict → Resp}
    (hf : ∀ u b, f u = .ok b → rowNoPassword b = true) :
    ∀ {db : Store} {rows : List JVal}, rowsOf f db = .ok rows →
      rows.all rowNoPassword = true := by
  intro db
  induction db with
  | nil =>
    intro rows h
    unfold rowsOf at h
    cases h
    rfl
  | cons p rest ih =>
    intro rows h
    obtain ⟨_, u⟩ := p
    unfold rowsOf at h
    obtain ⟨row, hrow, h⟩ := exceptBind_ok h
    obtain ⟨more, hmore, h⟩ := exceptBind_ok h
    cases h
    simp [List.all, hf u row hrow, ih hmore]

theorem main_get_user_ok_noPw {uid : String} {db : Store} {b : JVal}
    (h : (main.get_user uid db).1 = .ok b) : rowNoPassword b = true := by
  unfold main.get_user at h
  cases hg : Store.get db uid with
  | none => rw [hg] at h; cases h
  | some u => rw [hg] at h; exact main_userRow_ok_noPw h

theorem sample_get_user_ok_noPw {uid : String} {db : Store} {b : JVal}
    (h : (sample.get_user uid db).1 = .ok b) : rowNoPassword b = true := by
  unfold sample.get_user at h
  cases hg : Store.get db uid with
  | none => rw [hg] at h; cases h
  | some u => rw [hg] at h; exact sample_userRow_ok_noPw h

theorem main_list_users_ok_noPw {db : Store} {b : JVal}
    (h : (main.list_users db).1 = .ok b) : bodyNoPassword b = true := by
  unfold main.list_users at h
  cases hr : rowsOf main.userRow db with
  | error e => rw [hr] at h; cases h
  | ok rows =>
    rw [hr] at h
    cases h
    simpa [bodyNoPassword] using rowsOf_ok_noPw (fun u b hb => main_userRow_ok_noPw hb) hr

theorem sample_list_users_ok_noPw {db : Store} {b : JVal}
    (h : (sample.list_users db).1 = .ok b) : bodyNoPassword b = true := by
  unfold sample.list_users at h
  cases hr : rowsOf sample.userRow db with
  | error e => rw [hr] at h; cases h
  | ok rows =>
    rw [hr] at h
    cases h
    simpa [bodyNoPassword] using rowsOf_ok_noPw (fun u b hb => sample_userRow_ok_noPw hb) hr

theorem main_get_profile_ok_noPw {tok now : String} {db : Store} {b : JVal}
    (h : (main.get_profile tok now db).1 = .ok b) : rowNoPassword b = true := by
  unfold main.get_profile at h
  cases hb : pyStartswith tok "token_" with
  | false =>
    rw [hb] at h
    simp [Bind.bind, Except.bind] at h
  | true =>
    rw [hb] at h
    simp only [Bool.not_true, Bool.false_eq_true, if_false] at h
    cases hg : Store.get db "user1" with
    | none =>
      rw [hg] at h
      simp [Bind.bind, Except.bind, pure, Pure.pure, Except.pure] at h
    | some u =>
      rw [hg] at h
      simp only [Bind.bind] at h
      obtain ⟨a0, e0, h⟩ := exceptBind_ok h
      obtain ⟨a1, e1, h⟩ := exceptBind_ok h
      obtain ⟨a2, e2, h⟩ := exceptBind_ok h
      obtain ⟨a3, e3, h⟩ := exceptBind_ok h
      obtain ⟨a4, e4, h⟩ := exceptBind_ok h
      obtain ⟨a5, e5, h⟩ := exceptBind_ok h
      cases h
      rfl

theorem sample_get_profile_ok_noPw {tok now : String} {db : Store} {b : JVal}
    (h : (sample.get_profile tok now db).1 = .ok b) : rowNoPassword b = true := by
  unfold sample.get_profile at h
  cases hb : pyStartswith tok "token_" with
  | false =>
    rw [hb] at h
    simp [Bind.bind, Except.bind] at h
  | true =>
    rw [hb] at h
    simp only [Bool.not_true, Bool.false_eq_true, if_false] at h
    cases hg : Store.get db "user1" with
    | none =>
      rw [hg] at h
      simp [Bind.bind, Except.bind, pure, Pure.pure, Except.pure] at h
    | some u =>
      rw [hg] at h
      simp only [Bind.bind] at h
      obtain ⟨a0, e0, h⟩ := exceptBind_ok h
      obtain ⟨a1, e1, h⟩ := exceptBind_ok h
      obtain ⟨a2, e2, h⟩ := exceptBind_ok h
      obtain ⟨a3, e3, h⟩ := exceptBind_ok h
      obtain ⟨a4, e4, h⟩ := exceptBind_ok h
      obtain ⟨a5, e5, h⟩ := exceptBind_ok h
      cases h
      rfl

theorem main_create_user_ok_noPw {creq : models.CreateUserRequest} {now : String}
    {db : Store} {b : JVal} (h : (main.create_user creq now db).1 = .ok b) :
    rowNoPassword b = true := by
  have h2 : (Except.error (Fail.exn "AttributeError: gmail") : Resp) = Except.ok b := h
  cases h2

theorem sample_create_user_ok_noPw {creq : sample.CreateUserRequest} {now : String}
    {db : Store} {b : JVal} (h : (sample.create_user creq now db).1 = .ok b) :
    rowNoPassword b = true := by
  have h2 : (Except.error (Fail.exn "AttributeError: email") : Resp) = Except.ok b := h
  cases h2

/-- C9: for any two stores that differ only in stored password values, the
responses of get-user, list-users, create-user, get-profile and status are
identical in both variants, and every success body of get-user, list-users,
create-user and get-profile exposes no `password` field; hence stored
passwords cannot influence anything but the login endpoint's outcome. -/
theorem password_noninterference (s1 s2 : Store) (hpw : Store.samePw s1 s2 = true) :
    ((∀ uid, (main.get_user uid s1).1 = (main.get_user uid s2).1)
     ∧ (main.list_users s1).1 = (main.list_users s2).1
     ∧ (∀ creq now, (main.create_user creq now s1).1 = (main.create_user creq now s2).1)
     ∧ (∀ tok now, (main.get_profile tok now s1).1 = (main.get_profile tok now s2).1)
     ∧ (∀ now, (main.get_status now s1).1 = (main.get_status now s2).1)
     ∧ (∀ uid, (sample.get_user uid s1).1 = (sample.get_user uid s2).1)
     ∧ (sample.list_users s1).1 = (sample.list_users s2).1
     ∧ (∀ creq now, (sample.create_user creq now s1).1 = (sample.create_user creq now s2).1)
     ∧ (∀ tok now, (sample.get_profile tok now s1).1 = (sample.get_profile tok now s2).1)
     ∧ (∀ now, (sample.get_status now s1).1 = (sample.get_status now s2).1))
    ∧ ((∀ uid b, (main.get_user uid s1).1 = .ok b → rowNoPassword b = true)
     ∧ (∀ b, (main.list_users s1).1 = .ok b → bodyNoPassword b = true)
     ∧ (∀ creq now b, (main.create_user creq now s1).1 = .ok b → rowNoPassword b = true)
     ∧ (∀ tok now b, (main.get_profile tok now s1).1 = .ok b → rowNoPassword b = true)
     ∧ (∀ uid b, (sample.get_user uid s1).1 = .ok b → rowNoPassword b = true)
     ∧ (∀ b, (sample.list_users s1).1 = .ok b → bodyNoPassword b = true)
     ∧ (∀ creq now b, (sample.create_user creq now s1).1 = .ok b → rowNoPassword b = true)
     ∧ (∀ tok now b, (sample.get_profile tok now s1).1 = .ok b → rowNoPassword b = true)) :=
  ⟨⟨fun uid => main_get_user_samePw hpw uid,
    main_list_users_samePw hpw,
    fun _ _ => rfl,
    fun tok now => main_get_profile_samePw hpw tok now,
    fun now => main_get_status_samePw hpw now,
    fun uid => sample_get_user_samePw hpw uid,
    sample_list_users_samePw hpw,
    fun _ _ => rfl,
    fun tok now => sample_get_profile_samePw hpw tok now,
    fun now => sample_get_status_samePw hpw now⟩,
   ⟨fun _ _ h => main_get_user_ok_noPw h,
    fun _ h => main_list_users_ok_noPw h,
    fun _ _ _ h => main_create_user_ok_noPw h,
    fun _ _ _ h => main_get_profile_ok_noPw h,
    fun _ _ h => sample_get_user_ok_noPw h,
    fun _ h => sample_list_users_ok_noPw h,
    fun _ _ _ h => sample_create_user_ok_noPw h,
    fun _ _ _ h => sample_get_profile_ok_noPw h⟩⟩

/-- Witness for the password-noninterference theorem at the sample seed
store and its password-variant copy. -/
theorem password_noninterference_witness :
    Store.samePw sample.fake_users_db samplePwVariantStore = true
    ∧ (sample.get_user "user1" sample.fake_users_db).1
        = (sample.get_user "user1" samplePwVariantStore).1
    ∧ rowNoPassword (JVal.obj
        [("id", JVal.str "user1"), ("name", JVal.str "John Doe"),
         ("mobile", JVal.str "+1-234-567-8900"),
         ("created_at", JVal.str "2024-01-01T10:00:00Z")]) = true :=
  ⟨rfl,
   (password_noninterference sample.fake_users_db samplePwVariantStore rfl).1.2.2.2.2.2.1 "user1",
   (password_noninterference sample.fake_users_db samplePwVariantStore rfl).2.2.2.2.2.1 "user1" _ rfl⟩

/-- C6: in both variants the refresh-token endpoint answers 401 exactly when
the supplied string does not start with `refresh_`, and for any string with
that prefix it answers 200 with a newly generated token pair and a
3600-second validity window, independently of the store (so independently
of whether the string was ever issued by a login). -/
theorem refresh_token_prefix_gate (s now : String) (db : Store) :
    (((main.refresh_token ⟨s⟩ now db).1 = Except.error (Fail.http 401))
        ↔ pyStartswith s "refresh_" = false)
    ∧ (pyStartswith s "refresh_" = true →
        (main.refresh_token ⟨s⟩ now db).1 = Except.ok (JVal.obj
          [("token", JVal.str (main.mkRefreshedToken now)),
           ("refreshToken", JVal.str (main.mkRefreshedRefreshToken now)),
           ("expiresIn", JVal.num 3600)]))
    ∧ (((sample.refresh_token s now db).1 = Except.error (Fail.http 401))
        ↔ pyStartswith s "refresh_" = false)
    ∧ (pyStartswith s "refresh_" = true →
        (sample.refresh_token s now db).1 = Except.ok (JVal.obj
          [("token", JVal.str (sample.mkRefreshedToken now)),
           ("refreshToken", JVal.str (sample.mkRefreshedRefreshToken now)),
           ("expiresIn", JVal.num 3600)])) := by
  cases h : pyStartswith s "refresh_" with
  | false =>
    simp [main.refresh_token, sample.refresh_token, models.RefreshTokenRequest.getattr,
      h, Bind.bind, Except.bind, pure, Pure.pure, Except.pure]
  | true =>
    simp [main.refresh_token, sample.refresh_token, models.RefreshTokenRequest.getattr,
      h, Bind.bind, Except.bind, pure, Pure.pure, Except.pure]

/-- Witness for the refresh-token prefix gate at concrete inputs. -/
theorem refresh_token_prefix_gate_witness :
    pyStartswith "refresh_user1_123" "refresh_" = true
    ∧ (main.refresh_token ⟨"refresh_user1_123"⟩ "T0" database.fake_users_db).1
        = Except.ok (JVal.obj
            [("token", JVal.str (main.mkRefreshedToken "T0")),
             ("refreshToken", JVal.str (main.mkRefreshedRefreshToken "T0")),
             ("expiresIn", JVal.num 3600)])
    ∧ (sample.refresh_token "not_a_refresh_token" "T0" sample.fake_users_db).1
        = Except.error (Fail.http 401) :=
  ⟨rfl,
   (refresh_token_prefix_gate "refresh_user1_123" "T0" database.fake_users_db).2.1 rfl,
   (refresh_token_prefix_gate "not_a_refresh_token" "T0" sample.fake_users_db).2.2.1.mpr rfl⟩

/-- C8: every operation other than create-user (get user, list users,
login, refresh token, get profile, status, health) returns the store
exactly as it received it, in both variants and on every input; the two
create-user handlers also leave the store unchanged here because they
raise `AttributeError` before their insertion statement, so no record is
ever deleted or updated by any handler. -/
theorem non_create_handlers_preserve_store (db : Store) (uid tok s now : String)
    (lreq : models.LoginRequest) (rreq : models.RefreshTokenRequest)
    (slreq : sample.LoginRequest) (creq : models.CreateUserRequest)
    (screq : sample.CreateUserRequest) :
    (main.get_user uid db).2 = db
    ∧ (main.list_users db).2 = db
    ∧ (main.login lreq now db).2 = db
    ∧ (main.refresh_token rreq now db).2 = db
    ∧ (main.get_profile tok now db).2 = db
    ∧ (main.get_status now db).2 = db
    ∧ (main.health_check db).2 = db
    ∧ (sample.get_user uid db).2 = db
    ∧ (sample.list_users db).2 = db
    ∧ (sample.login slreq now db).2 = db
    ∧ (sample.refresh_token s now db).2 = db
    ∧ (sample.get_profile tok now db).2 = db
    ∧ (sample.get_status now db).2 = db
    ∧ (sample.health_check db).2 = db
    ∧ (main.create_user creq now db).2 = db
    ∧ (sample.create_user screq now db).2 = db :=
  ⟨rfl, rfl, rfl, rfl, rfl, rfl, rfl, rfl, rfl, rfl, rfl, rfl, rfl, rfl, rfl, rfl⟩

/-- C10: access tokens built by login and by the refresh endpoint start
with `token_jwt_` (hence pass the `token_` gate of get-profile and fail
the `refresh_` gate of refresh-token, which answers 401 on them), and the
refresh tokens they build start with `refresh_` (hence pass refresh-token's
gate and are answered 401 by get-profile): neither token kind is ever
accepted by the other endpoint. -/
theorem issued_token_kinds_cross_endpoint (uid ts now : String) (db : Store) :
    (pyStartswith (main.mkLoginToken uid ts) "token_jwt_" = true
     ∧ pyStartswith (main.mkLoginToken uid ts) "token_" = true
     ∧ pyStartswith (main.mkLoginToken uid ts) "refresh_" = false
     ∧ pyStartswith (main.mkLoginRefreshToken uid ts) "refresh_" = true
     ∧ pyStartswith (main.mkLoginRefreshToken uid ts) "token_" = false
     ∧ pyStartswith (main.mkRefreshedToken ts) "token_jwt_" = true
     ∧ pyStartswith (main.mkRefreshedToken ts) "token_" = true
     ∧ pyStartswith (main.mkRefreshedToken ts) "refresh_" = false
     ∧ pyStartswith (main.mkRefreshedRefreshToken ts) "refresh_" = true
     ∧ pyStartswith (main.mkRefreshedRefreshToken ts) "token_" = false)
    ∧ ((main.refresh_token ⟨main.mkLoginToken uid ts⟩ now db).1
         = Except.error (Fail.http 401)
     ∧ (main.refresh_token ⟨main.mkRefreshedToken ts⟩ now db).1
         = Except.error (Fail.http 401)
     ∧ (main.get_profile (main.mkLoginRefreshToken uid ts) now db).1
         = Except.error (Fail.http 401)
     ∧ (main.get_profile (main.mkRefreshedRefreshToken ts) now db).1
         = Except.error (Fail.http 401)
     ∧ (main.refresh_token ⟨main.mkLoginRefreshToken uid ts⟩ now db).1
         = Except.ok (JVal.obj
             [("token", JVal.str (main.mkRefreshedToken now)),
              ("refreshToken", JVal.str (main.mkRefreshedRefreshToken now)),
              ("expiresIn", JVal.num 3600)])
     ∧ (main.get_profile (main.mkLoginToken uid ts) now database.fake_users_db).1
         = Except.error (Fail.exn "KeyError: gmail"))
    ∧ ((sample.refresh_token (sample.mkLoginToken uid ts) now db).1
         = Except.error (Fail.http 401)
     ∧ (sample.get_profile (sample.mkLoginRefreshToken uid ts) now db).1
         = Except.error (Fail.http 401)
     ∧ (sample.refresh_token (sample.mkLoginRefreshToken uid ts) now db).1
         = Except.ok (JVal.obj
             [("token", JVal.str (sample.mkRefreshedToken now)),
              ("refreshToken", JVal.str (sample.mkRefreshedRefreshToken now)),
              ("expiresIn", JVal.num 3600)])
     ∧ (sample.get_profile (sample.mkLoginToken uid ts) now sample.fake_users_db).1
         = Except.ok (JVal.obj
             [("id", JVal.str "user1"), ("email", JVal.str "john@example.com"),
              ("name", JVal.str "John Doe"), ("mobile", JVal.str "+1-234-567-8900"),
              ("created_at", JVal.str "2024-01-01T10:00:00Z"),
              ("lastLogin", JVal.str (now ++ "Z"))])) :=
  ⟨⟨rfl, rfl, rfl, rfl, rfl, rfl, rfl, rfl, rfl, rfl⟩,
   ⟨rfl, rfl, rfl, rfl, rfl, rfl⟩,
   ⟨rfl, rfl, rfl, rfl⟩⟩

/-- C1 (failing evaluation): in the main variant, logging in with the seed
record's exact contact and password raises `KeyError: gmail` (the store
keys the contact under `mail` while the handler reads `gmail`), as does an
unknown contact, instead of success / 401; in the sample variant any login
raises `AttributeError: email` because `LoginRequest` declares only a
`password` field while the handler reads `request.email`. -/
theorem login_with_matching_credentials_crashes :
    (main.login ⟨"john@example.com", "hashed_password_123"⟩ "T0" database.fake_users_db).1
      = Except.error (Fail.exn "KeyError: gmail")
    ∧ (main.login ⟨"nobody@example.com", "whatever"⟩ "T0" database.fake_users_db).1
      = Except.error (Fail.exn "KeyError: gmail")
    ∧ (sample.login ⟨"hashed_password_123"⟩ "T0" sample.fake_users_db).1
      = Except.error (Fail.exn "AttributeError: email") :=
  ⟨rfl, rfl, rfl⟩

/-- C2 (failing evaluation): get-user on the absent id `user999` returns
404 in both variants, and the sample variant maps a present record to the
wire shape, but the main variant raises `KeyError: gmail` on the present
id `user1` instead of returning 200. -/
theorem get_user_404_and_lookup_behavior :
    (main.get_user "user999" database.fake_users_db).1 = Except.error (Fail.http 404)
    ∧ (sample.get_user "user999" sample.fake_users_db).1 = Except.error (Fail.http 404)
    ∧ (main.get_user "user1" database.fake_users_db).1
        = Except.error (Fail.exn "KeyError: gmail")
    ∧ (sample.get_user "user1" sample.fake_users_db).1
        = Except.ok (JVal.obj
            [("id", JVal.str "user1"), ("name", JVal.str "John Doe"),
             ("mobile", JVal.str "+1-234-567-8900"),
             ("created_at", JVal.str "2024-01-01T10:00:00Z")]) :=
  ⟨rfl, rfl, rfl, rfl⟩

/-- C3 (failing evaluation): in both variants create-user raises an
`AttributeError` (the handler reads an attribute its request model does
not declare) before inserting anything, so no created record can be
fetched back: the round-trip never happens. -/
theorem create_then_get_roundtrip_fails :
    main.create_user ⟨"x@y.com", "p", "X", "555"⟩ "T0" database.fake_users_db
      = (Except.error (Fail.exn "AttributeError: gmail"), database.fake_users_db)
    ∧ (main.get_user "user3" database.fake_users_db).1 = Except.error (Fail.http 404)
    ∧ sample.create_user ⟨"p", "X", "555"⟩ "T0" sample.fake_users_db
      = (Except.error (Fail.exn "AttributeError: email"), sample.fake_users_db)
    ∧ (sample.get_user "user3" sample.fake_users_db).1 = Except.error (Fail.http 404) :=
  ⟨rfl, rfl, rfl, rfl⟩

/-- C4 (failing evaluation): the id-allocation expression does compute
`user3` on the two-record seed store, but in both variants every
create-user call raises an `AttributeError` and returns the store
unchanged, so the ids `user3`, `user4`, ... are never actually assigned. -/
theorem create_sequential_ids_never_assigned (creq : models.CreateUserRequest)
    (screq : sample.CreateUserRequest) (now : String) (db : Store) :
    main.new_user_id database.fake_users_db = "user3"
    ∧ sample.new_user_id sample.fake_users_db = "user3"
    ∧ main.create_user creq now db = (Except.error (Fail.exn "AttributeError: gmail"), db)
    ∧ sample.create_user screq now db = (Except.error (Fail.exn "AttributeError: email"), db) :=
  ⟨rfl, rfl, rfl, rfl⟩

/-- C5 (failing evaluation): list-users on the seed store raises
`KeyError: gmail` in the main variant (so it does fail), while the sample
variant returns the full mapped array in insertion order; moreover no
create-user call ever changes the store length, so the length never
increases after a create. -/
theorem list_users_totality_split (creq : models.CreateUserRequest)
    (screq : sample.CreateUserRequest) (now : String) (db : Store) :
    (main.list_users database.fake_users_db).1 = Except.error (Fail.exn "KeyError: gmail")
    ∧ (sample.list_users sample.fake_users_db).1
        = Except.ok (JVal.arr
            [JVal.obj [("id", JVal.str "user1"), ("name", JVal.str "John Doe"),
               ("mobile", JVal.str "+1-234-567-8900"),
               ("created_at", JVal.str "2024-01-01T10:00:00Z")],
             JVal.obj [("id", JVal.str "user2"), ("name", JVal.str "Jane Smith"),
               ("mobile", JVal.str "+1-987-654-3210"),
               ("created_at", JVal.str "2024-01-02T10:00:00Z")]])
    ∧ (main.create_user creq now db).2.length = db.length
    ∧ (sample.create_user screq now db).2.length = db.length :=
  ⟨rfl, rfl, rfl, rfl⟩

/-- C7 (failing evaluation): both variants answer 401 when the token lacks
the `token_` prefix, but on a correctly prefixed token the main variant
raises `KeyError: gmail` while reading the demo record instead of
returning 200; the sample variant returns the fixed `user1` record plus a
fresh `lastLogin` timestamp. -/
theorem get_profile_prefix_and_demo_record :
    (main.get_profile "token_abc" "T0" database.fake_users_db).1
      = Except.error (Fail.exn "KeyError: gmail")
    ∧ (main.get_profile "bad_token" "T0" database.fake_users_db).1
      = Except.error (Fail.http 401)
    ∧ (sample.get_profile "token_abc" "T0" sample.fake_users_db).1
      = Except.ok (JVal.obj
          [("id", JVal.str "user1"), ("email", JVal.str "john@example.com"),
           ("name", JVal.str "John Doe"), ("mobile", JVal.str "+1-234-567-8900"),
           ("created_at", JVal.str "2024-01-01T10:00:00Z"),
           ("lastLogin", JVal.str "T0Z")])
    ∧ (sample.get_profile "bad_token" "T0" sample.fake_users_db).1
      = Except.error (Fail.http 401) :=
  ⟨rfl, rfl, rfl, rfl⟩
